import Mathlib

/-!
Verification of the Redux_ToDo_Web_Backend repository: a minimal Django CRUD
backend for a todo list plus a JWT encode/decode helper.

The repository ships two source artefacts: the view test suite
(`todo/tests/test_views.py`) and the token codec (`user/utils/jwt.py`).
The view functions (`todo_view`, `todo_detail_view`) and the `Todo` model are
exercised by the tests but their module is not part of the sources, so they
are modelled from the specification; the token codec wraps the external
PyJWT library, whose signing internals are likewise modelled from the
specification as an ideal message-authentication code.
-/

namespace TodoBackend

/-- HTTP methods a client can use against either endpoint. -/
inductive Method
  | GET | POST | PUT | DELETE | PATCH | HEAD | OPTIONS | TRACE
deriving DecidableEq, Repr

/-- Modelled from the spec: the `Todo` model (`todo/models.py` is absent from
the sources). A record is `{ id : integer, text : string,
is_completed : boolean (default false) }`; `id` is store-assigned, unique and
immutable. -/
structure Todo where
  id : Nat
  text : String
  is_completed : Bool
deriving DecidableEq, Repr

/-- Modelled from the spec: the abstract Record Store holding the `Todo`
rows. `nextId` is the store-assigned identifier for the next created record
(auto-increment, never reset). -/
structure Store where
  records : List Todo
  nextId : Nat
deriving DecidableEq, Repr

/-- Wire shape of a record: `{id, text, isCompleted}`, with `isCompleted`
renamed from the internal `is_completed` field. -/
structure TodoJson where
  id : Nat
  text : String
  isCompleted : Bool
deriving DecidableEq, Repr

/-- Projection of an internal record to its wire shape. -/
def serialize (t : Todo) : TodoJson :=
  { id := t.id, text := t.text, isCompleted := t.is_completed }

/-- Parsed request body for create/update: both fields are optional, and
presence is distinguished from absence (partial-update semantics). -/
structure ReqBody where
  text : Option String
  isCompleted : Option Bool
deriving DecidableEq, Repr

/-- Body of an HTTP response. The `json*` constructors are Django
`JsonResponse` bodies; `notAllowed` is a Django `HttpResponseNotAllowed`
carrying the Allow list; `noBody` is a plain body-less `HttpResponse`
(available in Django but unused by these views). -/
inductive HttpBody
  | jsonData (items : List TodoJson)
  | jsonDataOne (item : TodoJson)
  | jsonError (msg : String)
  | jsonEmpty
  | noBody
  | notAllowed (allowed : List String)
deriving DecidableEq, Repr

/-- An HTTP response: a status code and a body. -/
structure HttpResponse where
  status : Nat
  body : HttpBody
deriving DecidableEq, Repr

/-- True when the response is a Django `JsonResponse` (it has a JSON body
and JSON content type), as opposed to a body-less or method-not-allowed
response. -/
def HttpResponse.isJsonResponse : HttpResponse → Bool
  | ⟨_, .jsonData _⟩ => true
  | ⟨_, .jsonDataOne _⟩ => true
  | ⟨_, .jsonError _⟩ => true
  | ⟨_, .jsonEmpty⟩ => true
  | _ => false

/-- The fixed user-visible failure payload of the generic error envelope. -/
def genericErrorMsg : String := "An error has occurred. Please try again."

/-- The generic error response: `{error: "An error has occurred. Please try
again."}` with internal-error (500) status. -/
def errorResponse : HttpResponse :=
  { status := 500, body := .jsonError genericErrorMsg }

/-- Ordering of records by ascending store-assigned identifier. -/
def byId (a b : Todo) : Prop := a.id ≤ b.id

instance : DecidableRel byId := fun a b => Nat.decLe a.id b.id

instance : IsTotal Todo byId := ⟨fun a b => Nat.le_total a.id b.id⟩

instance : IsTrans Todo byId := ⟨fun _ _ _ => Nat.le_trans⟩

/-- Look up a record by identifier. -/
def lookupTodo (st : Store) (tid : Nat) : Option Todo :=
  st.records.find? (fun t => t.id == tid)

/-- Methods the collection endpoint permits. -/
def collectionAllows : Method → Bool
  | .GET | .POST | .DELETE => true
  | _ => false

/-- Allow list sent with a 405 on the collection endpoint. -/
def collectionAllowList : List String := ["GET", "POST", "DELETE"]

/-- Methods the item endpoint permits. -/
def itemAllows : Method → Bool
  | .PUT | .DELETE => true
  | _ => false

/-- Allow list sent with a 405 on the item endpoint. -/
def itemAllowList : List String := ["PUT", "DELETE"]

/-- Modelled from the spec: `todo_view`, the Todo Collection Handler
(`todo/views.py` is absent from the sources). Dispatches on the HTTP
method: GET lists all records ordered by ascending id projected to wire
shape, POST creates a record from the body's `text` (completion flag always
defaults false), DELETE deletes every record, and any other method yields
405 with the allowed methods. `storeFails` models the underlying store
read/write failing for any reason; every failure collapses to the generic
error envelope with 500 status. -/
def todo_view (m : Method) (body : ReqBody) (storeFails : Bool) (st : Store) :
    HttpResponse × Store :=
  match m with
  | .GET =>
    if storeFails then (errorResponse, st)
    else ({ status := 200,
            body := .jsonData ((List.insertionSort byId st.records).map serialize) },
          st)
  | .POST =>
    match body.text with
    | none => (errorResponse, st)
    | some txt =>
      if storeFails then (errorResponse, st)
      else
        ({ status := 200,
           body := .jsonDataOne ⟨st.nextId, txt, false⟩ },
         { records := st.records ++ [⟨st.nextId, txt, false⟩],
           nextId := st.nextId + 1 })
  | .DELETE =>
    ({ status := 204, body := .jsonEmpty }, { records := [], nextId := st.nextId })
  | _ => ({ status := 405, body := .notAllowed collectionAllowList }, st)

/-- Result of applying a partial update body to an existing record: supplied
fields are applied, fields not supplied keep their previous value, and the
identifier is immutable. -/
def applyUpdate (t : Todo) (body : ReqBody) : Todo :=
  { id := t.id,
    text := body.text.getD t.text,
    is_completed := body.isCompleted.getD t.is_completed }

/-- Modelled from the spec: `todo_detail_view`, the Todo Item Handler
(`todo/views.py` is absent from the sources). PUT looks up the record by
the path-embedded identifier and, if present, applies the supplied fields
and persists; DELETE looks up and deletes the record. An absent identifier
yields the generic error envelope with 500 status (no distinguished
not-found kind); any other method yields 405 with the allowed methods. -/
def todo_detail_view (m : Method) (tid : Nat) (body : ReqBody) (st : Store) :
    HttpResponse × Store :=
  match m with
  | .PUT =>
    match lookupTodo st tid with
    | none => (errorResponse, st)
    | some t =>
      let t' := applyUpdate t body
      ({ status := 200, body := .jsonDataOne (serialize t') },
       { records := st.records.map (fun r => if r.id == tid then t' else r),
         nextId := st.nextId })
  | .DELETE =>
    match lookupTodo st tid with
    | none => (errorResponse, st)
    | some _ =>
      ({ status := 204, body := .jsonEmpty },
       { records := st.records.filter (fun r => r.id != tid),
         nextId := st.nextId })
  | _ => ({ status := 405, body := .notAllowed itemAllowList }, st)

end TodoBackend

namespace Jwt

/-- Value of a claim: the spec restricts claims mappings to string-, number-
and boolean-valued entries. -/
inductive CVal
  | str (s : String)
  | num (n : Int)
  | bool (b : Bool)
deriving DecidableEq, Repr

/-- Claims mapping: key-to-value pairs, opaque to the codec. -/
def ClaimsMap : Type := List (String × CVal)

instance : DecidableEq ClaimsMap := by
  unfold ClaimsMap
  infer_instance

/-- Process-wide codec configuration, read from the environment at startup:
`os.environ.get` yields `none` when the variable is absent. -/
structure Config where
  SECRET_KEY : Option String
  JWT_ALGORITHM : Option String

/-- Modelled from the spec: the signature PyJWT computes over the payload
with the symmetric secret and the configured algorithm (the PyJWT library is
an external dependency, not part of the sources). It is modelled as an
ideal message-authentication code: two signatures agree exactly when secret,
algorithm and payload all agree. -/
structure Sig where
  secret : String
  alg : String
  payload : ClaimsMap
deriving DecidableEq

/-- Modelled from the spec: a token string as PyJWT structures it — either a
well-formed signed token carrying a header algorithm, a payload and a
signature, or a malformed string that fails to parse. -/
inductive Token
  | signed (alg : String) (payload : ClaimsMap) (sig : Sig)
  | malformed (raw : String)
deriving DecidableEq

/-- Failure kinds of `decode`: every `invalidToken` corresponds to PyJWT's
`InvalidTokenError` hierarchy (`DecodeError` for malformed input,
`InvalidAlgorithmError` for a header algorithm outside the allowed list,
`InvalidSignatureError` for a bad signature); `configError` is the
configuration error surfaced at first use when secret or algorithm is
absent. -/
inductive InvalidKind
  | malformedToken
  | badAlgorithm
  | badSignature
deriving DecidableEq, Repr

/-- Error type of the codec operations. -/
inductive JwtError
  | invalidToken (kind : InvalidKind)
  | configError
deriving DecidableEq, Repr

/-- The ideal MAC over a payload. -/
def macSign (secret alg : String) (payload : ClaimsMap) : Sig :=
  ⟨secret, alg, payload⟩

/-- Embedding of `encode_jwt` (`user/utils/jwt.py`):
`jwt.encode(data, SECRET_KEY, algorithm=JWT_ALGORITHM)`. Serializes the
claims together with a signature computed with the configured secret and
algorithm; absence of either configuration value is a configuration error
surfaced here, at first use. -/
def encode_jwt (cfg : Config) (data : ClaimsMap) : Except JwtError Token :=
  match cfg.SECRET_KEY, cfg.JWT_ALGORITHM with
  | some s, some a => .ok (.signed a data (macSign s a data))
  | _, _ => .error .configError

/-- Embedding of `decode_jwt` (`user/utils/jwt.py`):
`jwt.decode(access_token, SECRET_KEY, algorithms=[JWT_ALGORITHM])`. Fails
with an `InvalidTokenError` kind when the token is malformed, its header
algorithm is not the configured one, or its signature does not verify
against the configured secret and algorithm; on success returns the claims
mapping. -/
def decode_jwt (cfg : Config) (access_token : Token) :
    Except JwtError ClaimsMap :=
  match cfg.SECRET_KEY, cfg.JWT_ALGORITHM with
  | some s, some a =>
    match access_token with
    | .malformed _ => .error (.invalidToken .malformedToken)
    | .signed ta p sig =>
      if ta ≠ a then .error (.invalidToken .badAlgorithm)
      else if sig ≠ macSign s a p then .error (.invalidToken .badSignature)
      else .ok p
  | _, _ => .error .configError

/-- True when the result is a failure of `InvalidTokenError` kind. -/
def isInvalidTokenError : Except JwtError ClaimsMap → Bool
  | .error (.invalidToken _) => true
  | _ => false

end Jwt

open TodoBackend Jwt

/-- Store state mirroring the test fixture: two records, ids 1 and 2, the
first completed, the next store-assigned id being 3. -/
def sampleStore : Store :=
  { records := [⟨1, "Todo Text 1", true⟩, ⟨2, "Todo Text 2", false⟩],
    nextId := 3 }

/-- C1: collection DELETE deletes every Todo record unconditionally: for
every store state (and any request body or store-failure flag), the
resulting store holds zero records, the response is the empty success
response with no-content (204) status, and the operation is idempotent — a
second DELETE on the now-empty store still succeeds with 204. -/
theorem collection_delete_clears_store (body : ReqBody) (f : Bool) (st : Store) :
    (todo_view .DELETE body f st).1 = ⟨204, .jsonEmpty⟩ ∧
    (todo_view .DELETE body f st).2.records = [] ∧
    (todo_view .DELETE body f ((todo_view .DELETE body f st).2)).1 =
      ⟨204, .jsonEmpty⟩ ∧
    (todo_view .DELETE body f ⟨[], st.nextId⟩).1.status = 204 :=
  ⟨rfl, rfl, rfl, rfl⟩

/-- C2: token codec round trip — for every claims mapping and every valid
configuration (secret and algorithm both present), decoding an encoded
token returns exactly the original mapping. -/
theorem decode_encode_roundtrip (m : ClaimsMap) (s a : String) :
    (encode_jwt ⟨some s, some a⟩ m).bind (decode_jwt ⟨some s, some a⟩) =
      .ok m := by
  simp [encode_jwt, decode_jwt, Except.bind]

/-- C7: collection POST with a body lacking the `text` field returns the
generic error envelope with internal-error (500) status and persists no
record: the store after the failed create equals the store before it,
whether or not the underlying store write would have failed. -/
theorem collection_post_missing_text_fails (body : ReqBody) (f : Bool)
    (st : Store) (h : body.text = none) :
    todo_view .POST body f st = (errorResponse, st) := by
  simp [todo_view, h]

/-- C7 witness: a concrete body without `text` against the fixture store. -/
theorem collection_post_missing_text_fails_witness :
    todo_view .POST ⟨none, some true⟩ false sampleStore =
      (errorResponse, sampleStore) :=
  collection_post_missing_text_fails ⟨none, some true⟩ false sampleStore rfl

/-- C5: collection GET — when the store read succeeds it returns all Todo
records ordered by ascending id, each projected to the `{id, text,
isCompleted}` wire shape (with `isCompleted` renamed from `is_completed`),
wrapped as a `data` payload with success (200) status and no store change;
when the store read fails for any reason it returns the generic error
envelope with internal-error (500) status, no partial data and no store
change. -/
theorem collection_get_lists_sorted (body : ReqBody) (st : Store) (t : Todo) :
    todo_view .GET body false st =
      (⟨200, .jsonData ((List.insertionSort byId st.records).map serialize)⟩,
       st) ∧
    List.Sorted byId (List.insertionSort byId st.records) ∧
    List.Perm (List.insertionSort byId st.records) st.records ∧
    serialize t = ⟨t.id, t.text, t.is_completed⟩ ∧
    todo_view .GET body true st = (errorResponse, st) :=
  ⟨rfl, List.sorted_insertionSort byId st.records,
   List.perm_insertionSort byId st.records, rfl, rfl⟩

/-- C3: decoding any token produced by encoding under a different secret or
a different algorithm fails with an `InvalidTokenError` kind (never
returning a claims mapping), and decoding any malformed token string
likewise fails with an `InvalidTokenError` kind. -/
theorem decode_foreign_or_malformed_fails (m : ClaimsMap)
    (s a sd ad raw : String) (h : s ≠ sd ∨ a ≠ ad) :
    (∀ t, encode_jwt ⟨some s, some a⟩ m = .ok t →
        isInvalidTokenError (decode_jwt ⟨some sd, some ad⟩ t) = true) ∧
    isInvalidTokenError (decode_jwt ⟨some sd, some ad⟩ (.malformed raw)) =
      true := by
  refine ⟨fun t ht => ?_, rfl⟩
  simp only [encode_jwt, Except.ok.injEq] at ht
  subst ht
  by_cases hA : a = ad
  · subst hA
    have hs : s ≠ sd := h.resolve_right (fun hc => hc rfl)
    simp [decode_jwt, macSign, isInvalidTokenError, Sig.mk.injEq, hs]
  · simp [decode_jwt, isInvalidTokenError, hA]

/-- C3 witness: a token signed under secret `k1` fails to decode under the
configuration with secret `k2` (same algorithm), and a malformed string
fails to decode. -/
theorem decode_foreign_or_malformed_fails_witness :
    isInvalidTokenError
      (decode_jwt ⟨some "k2", some "HS256"⟩
        (.signed "HS256" [] (macSign "k1" "HS256" []))) = true ∧
    isInvalidTokenError
      (decode_jwt ⟨some "k2", some "HS256"⟩ (.malformed "xx")) = true := by
  have h := decode_foreign_or_malformed_fails [] "k1" "HS256" "k2" "HS256"
    "xx" (Or.inl (by decide))
  exact ⟨h.1 _ rfl, h.2⟩

/-- C4: for every identifier with no record in the store, item PUT and item
DELETE both return exactly the generic error envelope `{error: "An error
has occurred. Please try again."}` with internal-error (500) status and
leave the store unchanged; no distinguished not-found kind, message or
status is exposed, and the other internal failure kinds (create with
missing `text`, list with a failing store read) collapse to the very same
response. -/
theorem item_absent_collapses_to_generic_error (st : Store) (tid : Nat)
    (body b : ReqBody) (f : Bool) (h : lookupTodo st tid = none)
    (hb : b.text = none) :
    todo_detail_view .PUT tid body st = (errorResponse, st) ∧
    todo_detail_view .DELETE tid body st = (errorResponse, st) ∧
    errorResponse = ⟨500, .jsonError "An error has occurred. Please try again."⟩ ∧
    todo_view .POST b f st = (errorResponse, st) ∧
    todo_view .GET b true st = (errorResponse, st) := by
  refine ⟨?_, ?_, rfl, ?_, rfl⟩
  · simp [todo_detail_view, h]
  · simp [todo_detail_view, h]
  · simp [todo_view, hb]

/-- C4 witness: identifier 3 is absent from the fixture store; PUT and
DELETE on it return the generic error envelope and leave the store as it
was. -/
theorem item_absent_collapses_to_generic_error_witness :
    todo_detail_view .PUT 3 ⟨some "Edit Text", some true⟩ sampleStore =
      (errorResponse, sampleStore) ∧
    todo_detail_view .DELETE 3 ⟨some "Edit Text", some true⟩ sampleStore =
      (errorResponse, sampleStore) := by
  have h := item_absent_collapses_to_generic_error sampleStore 3
    ⟨some "Edit Text", some true⟩ ⟨none, none⟩ false rfl rfl
  exact ⟨h.1, h.2.1⟩

/-- C6: collection POST with a body containing a `text` field persists a new
record with that text and `is_completed = false` — whatever
`isCompleted` value the body carries is ignored, the flag always defaults
to false — and responds with the created record's `{id, text, isCompleted}`
wire shape as a `data` payload with success (200) status. -/
theorem collection_post_creates_record (body : ReqBody) (st : Store)
    (txt : String) (h : body.text = some txt) :
    todo_view .POST body false st =
      (⟨200, .jsonDataOne ⟨st.nextId, txt, false⟩⟩,
       ⟨st.records ++ [⟨st.nextId, txt, false⟩], st.nextId + 1⟩) ∧
    ⟨st.nextId, txt, false⟩ ∈ (todo_view .POST body false st).2.records := by
  have hres : todo_view .POST body false st =
      (⟨200, .jsonDataOne ⟨st.nextId, txt, false⟩⟩,
       ⟨st.records ++ [⟨st.nextId, txt, false⟩], st.nextId + 1⟩) := by
    simp [todo_view, h]
  exact ⟨hres, by simp [hres]⟩

/-- C6 witness: creating "Todo Text 3" against the fixture store, with a
stray `isCompleted: true` in the body, yields record
`{id: 3, text: "Todo Text 3", isCompleted: false}` and persists it with the
flag false. -/
theorem collection_post_creates_record_witness :
    todo_view .POST ⟨some "Todo Text 3", some true⟩ false sampleStore =
      (⟨200, .jsonDataOne ⟨3, "Todo Text 3", false⟩⟩,
       ⟨sampleStore.records ++ [⟨3, "Todo Text 3", false⟩], 4⟩) :=
  (collection_post_creates_record ⟨some "Todo Text 3", some true⟩
    sampleStore "Todo Text 3" rfl).1

/-- C8: item PUT on an existing record applies exactly the supplied subset
of `{text, isCompleted}` and persists the merged record — the identifier is
immutable, a field not supplied in the body keeps its previous value, a
supplied field takes the supplied value, and every record with a different
identifier is left in place — responding with the merged record's wire
shape as a `data` payload with success (200) status. -/
theorem item_put_partial_update (st : Store) (tid : Nat) (body : ReqBody)
    (t : Todo) (h : lookupTodo st tid = some t) :
    todo_detail_view .PUT tid body st =
      (⟨200, .jsonDataOne (serialize (applyUpdate t body))⟩,
       ⟨st.records.map (fun r => if r.id == tid then applyUpdate t body else r),
        st.nextId⟩) ∧
    (applyUpdate t body).id = t.id ∧
    (body.text = none → (applyUpdate t body).text = t.text) ∧
    (body.isCompleted = none →
      (applyUpdate t body).is_completed = t.is_completed) ∧
    (∀ txt, body.text = some txt → (applyUpdate t body).text = txt) ∧
    (∀ c, body.isCompleted = some c → (applyUpdate t body).is_completed = c) ∧
    (∀ r, r ∈ st.records → (r.id == tid) = false →
      r ∈ (todo_detail_view .PUT tid body st).2.records) := by
  have hres : todo_detail_view .PUT tid body st =
      (⟨200, .jsonDataOne (serialize (applyUpdate t body))⟩,
       ⟨st.records.map (fun r => if r.id == tid then applyUpdate t body else r),
        st.nextId⟩) := by
    simp [todo_detail_view, h]
  refine ⟨hres, rfl, ?_, ?_, ?_, ?_, ?_⟩
  · intro hn; simp [applyUpdate, hn]
  · intro hn; simp [applyUpdate, hn]
  · intro txt hs; simp [applyUpdate, hs]
  · intro c hs; simp [applyUpdate, hs]
  · intro r hr hne
    rw [hres]
    exact List.mem_map.mpr ⟨r, hr, by simp [hne]⟩

/-- C8 witness: updating record 1 of the fixture store with
`{text: "Edit Text", isCompleted: true}` responds with the merged record
`{id: 1, text: "Edit Text", isCompleted: true}` and persists it while
record 2 is untouched. -/
theorem item_put_partial_update_witness :
    todo_detail_view .PUT 1 ⟨some "Edit Text", some true⟩ sampleStore =
      (⟨200, .jsonDataOne ⟨1, "Edit Text", true⟩⟩,
       ⟨[⟨1, "Edit Text", true⟩, ⟨2, "Todo Text 2", false⟩], 3⟩) := by
  have h := (item_put_partial_update sampleStore 1
    ⟨some "Edit Text", some true⟩ ⟨1, "Todo Text 1", true⟩ rfl).1
  simpa [sampleStore, serialize, applyUpdate] using h

/-- C9: every HTTP method not permitted on an endpoint — any method other
than GET/POST/DELETE on the collection path, any method other than
PUT/DELETE on the item path — yields a method-not-allowed (405) response
carrying the non-empty list of allowed methods, and the store is left
completely unchanged. -/
theorem disallowed_method_yields_405 (mc mi : Method) (body : ReqBody)
    (f : Bool) (st : Store) (tid : Nat)
    (hc : collectionAllows mc = false) (hi : itemAllows mi = false) :
    todo_view mc body f st =
      (⟨405, .notAllowed collectionAllowList⟩, st) ∧
    collectionAllowList ≠ [] ∧
    todo_detail_view mi tid body st =
      (⟨405, .notAllowed itemAllowList⟩, st) ∧
    itemAllowList ≠ [] := by
  refine ⟨?_, by decide, ?_, by decide⟩
  · cases mc <;> first | rfl | simp [collectionAllows] at hc
  · cases mi <;> first | rfl | simp [itemAllows] at hi

/-- C9 witness: PUT on the collection endpoint and GET on the item endpoint
(the methods the tests use) both return 405 with the endpoint's allowed
methods and leave the fixture store unchanged. -/
theorem disallowed_method_yields_405_witness :
    todo_view .PUT ⟨none, none⟩ false sampleStore =
      (⟨405, .notAllowed collectionAllowList⟩, sampleStore) ∧
    todo_detail_view .GET 1 ⟨none, none⟩ sampleStore =
      (⟨405, .notAllowed itemAllowList⟩, sampleStore) := by
  have h := disallowed_method_yields_405 .PUT .GET ⟨none, none⟩ false
    sampleStore 1 rfl rfl
  exact ⟨h.1, h.2.2.1⟩

/-- C10: the successful no-content (204) responses of collection bulk
delete and of item delete are JSON responses (`JsonResponse` values with a
JSON body), not body-less empty responses. -/
theorem delete_success_is_json_response (body : ReqBody) (f : Bool)
    (st : Store) (tid : Nat) (t : Todo) (h : lookupTodo st tid = some t) :
    (todo_view .DELETE body f st).1.isJsonResponse = true ∧
    (todo_view .DELETE body f st).1.body ≠ .noBody ∧
    (todo_view .DELETE body f st).1.status = 204 ∧
    (todo_detail_view .DELETE tid body st).1.isJsonResponse = true ∧
    (todo_detail_view .DELETE tid body st).1.body ≠ .noBody ∧
    (todo_detail_view .DELETE tid body st).1.status = 204 := by
  have hres : (todo_detail_view .DELETE tid body st).1 = ⟨204, .jsonEmpty⟩ := by
    simp [todo_detail_view, h]
  refine ⟨rfl, by simp [todo_view], rfl, ?_, ?_, ?_⟩ <;> simp [hres,
    HttpResponse.isJsonResponse]

/-- C10 witness: bulk delete and the delete of record 1 against the fixture
store both produce JSON 204 responses. -/
theorem delete_success_is_json_response_witness :
    (todo_view .DELETE ⟨none, none⟩ false sampleStore).1.isJsonResponse =
      true ∧
    (todo_detail_view .DELETE 1 ⟨none, none⟩ sampleStore).1.isJsonResponse =
      true := by
  have h := delete_success_is_json_response ⟨none, none⟩ false sampleStore 1
    ⟨1, "Todo Text 1", true⟩ rfl
  exact ⟨h.1, h.2.2.2.1⟩
